import Mathlib

/-!
Shallow embedding of the data-access core of the `weather` repository
(`src/lib/weatherService.ts` and `src/app/api/weather/route.ts`), together
with theorems settling the specification claims about it.

Conventions of the embedding:
* JavaScript numbers are modelled as exact rationals (`ℚ`); `Math.round`
  is `round` (both compute `⌊x + 1/2⌋`), `Math.floor` is `Int.floor`.
* Timestamps (milliseconds) are modelled as `Int`.
* A fallible upstream interaction (`fetch` + `response.json()`) is an
  `Except Unit payload`: `.error` stands for any thrown error
  (network failure, non-ok status, JSON parse error).
* Environment-dependent primitives of the browser (`Date#getDay`,
  `toLocaleTimeString`, `toLocaleDateString`, `toISOString`, `Date.now`,
  `Math.random`) are passed explicitly as a `JsEnv` record; `Math.random`
  is an oracle stream `Nat → ℚ` consumed at distinct indices.
-/

namespace Weather

/-! ## Cache key derivation (`getCacheKey`, weatherService.ts lines 68-70)

The source computes `` `${endpoint}-${JSON.stringify(params)}` `` where
`params` is a flat record whose values are numbers or strings.  We model
such a record as an insertion-ordered association list, and `JSON.stringify`
on it per ECMA-262: enumeration in insertion order (all keys here are
non-numeric strings), each entry rendered as `"key":value`.  Numeric values
are modelled as integers (their decimal rendering); none of the claims
depend on fractional number formatting. -/

inductive JVal where
  | num (n : Int)
  | str (s : String)
deriving DecidableEq, Repr

abbrev Params : Type := List (String × JVal)

def stringifyVal : JVal → String
  | .num n => toString n
  | .str s => "\"" ++ s ++ "\""

def jsonStringify (params : Params) : String :=
  "\x7b" ++ String.intercalate ","
    (params.map (fun kv => "\"" ++ kv.1 ++ "\":" ++ stringifyVal kv.2)) ++ "\x7d"

def getCacheKey (endpoint : String) (params : Params) : String :=
  endpoint ++ "-" ++ jsonStringify params

/-- Spec-side characterisation of the key derivation: the spec asks for a
canonical, order-independent encoding, i.e. two mappings equal as sets of
key-value pairs must serialize identically.  (Compared against the source
`getCacheKey` in claim C1.) -/
def specOrderIndependent (f : String → Params → String) : Prop :=
  ∀ e (p₁ p₂ : Params), p₁.Perm p₂ → f e p₁ = f e p₂

/-- First-match lookup in an insertion-ordered parameter record, as JS
property access. -/
def lookupParam (k : String) : Params → Option JVal
  | [] => none
  | kv :: t => if kv.1 = k then some kv.2 else lookupParam k t

/-! ## Cache (`weatherService.ts` lines 56-101)

`private cache: Map<string, { data: any; timestamp: number }>`.  The payload
type is `any` in the source, so the model is polymorphic in `α`.  A JS `Map`
keeps insertion order and `set` overwrites in place; we model it as an
association list with first-match `get` and overwrite-or-append `set`. -/

structure CacheEntry (α : Type) where
  data : α
  timestamp : Int
deriving DecidableEq, Repr

abbrev Cache (α : Type) : Type := List (String × CacheEntry α)

def mapGet {α : Type} (m : Cache α) (k : String) : Option (CacheEntry α) :=
  match m with
  | [] => none
  | (k', e) :: t => if k' = k then some e else mapGet t k

def mapSet {α : Type} (m : Cache α) (k : String) (e : CacheEntry α) : Cache α :=
  match m with
  | [] => [(k, e)]
  | (k', e') :: t => if k' = k then (k, e) :: t else (k', e') :: mapSet t k e

/-- `CACHE_DURATION = 10 * 60 * 1000` (line 59). -/
def CACHE_DURATION : Int := 10 * 60 * 1000

/-- `isDataExpired` (lines 72-74): `Date.now() - timestamp > this.CACHE_DURATION`.
`Date.now()` is passed explicitly as `now`. -/
def isDataExpired (now timestamp : Int) : Bool :=
  now - timestamp > CACHE_DURATION

/-- `fetchWithCache` (lines 76-101).  `net` is the outcome of
`fetch(url)` + `response.json()` for this invocation: `.ok d` when the
response was ok and parsed, `.error ()` when anything threw (in the source
that error is logged and rethrown).  Returns the delivered result and the
updated cache: the cache is written only on a successful fetch (line 94). -/
def fetchWithCache {α : Type} (cache : Cache α) (endpoint : String)
    (params : Params) (now : Int) (net : Except Unit α) :
    Except Unit α × Cache α :=
  let cacheKey := getCacheKey endpoint params
  match mapGet cache cacheKey with
  | some cached =>
    if isDataExpired now cached.timestamp then
      match net with
      | .ok d => (.ok d, mapSet cache cacheKey ⟨d, now⟩)
      | .error e => (.error e, cache)
    else
      (.ok cached.data, cache)
  | none =>
    match net with
    | .ok d => (.ok d, mapSet cache cacheKey ⟨d, now⟩)
    | .error e => (.error e, cache)

/-- `clearCache` (lines 322-324): `this.cache.clear()`. -/
def clearCache {α : Type} (_cache : Cache α) : Cache α := []

/-! ## Raw provider payload shapes (interfaces in `route.ts`, fields the
normalization layer reads)

Only the fields read by `weatherService.ts` are carried.  A field the JS
code indexes as `array[0]` is a `List`, so that the model can express the
`TypeError` thrown on an empty array (normalization then returns `none`,
which the fetcher's catch turns into fallback data). -/

structure WeatherCond where
  description : String
  icon : String
deriving DecidableEq, Repr

structure MainInfo where
  temp : ℚ
  feels_like : ℚ
  pressure : ℚ
  humidity : ℚ
deriving DecidableEq, Repr

structure WindInfo where
  speed : ℚ
deriving DecidableEq, Repr

structure SysInfo where
  country : String
deriving DecidableEq, Repr

structure Coord where
  lat : ℚ
  lon : ℚ
deriving DecidableEq, Repr

/-- `WeatherResponse` (route.ts lines 7-45), restricted to the fields read
by `getCurrentWeather`. -/
structure WeatherResponse where
  coord : Coord
  weather : List WeatherCond
  main : MainInfo
  visibility : ℚ
  wind : WindInfo
  sys : SysInfo
  name : String
deriving DecidableEq, Repr

structure ForecastItemMain where
  temp : ℚ
  humidity : ℚ
deriving DecidableEq, Repr

/-- One entry of `ForecastResponse.list` (route.ts lines 51-81), fields read
by `getHourlyForecast`. -/
structure ForecastItem where
  dt : Int
  main : ForecastItemMain
  weather : List WeatherCond
  wind : WindInfo
  pop : ℚ
deriving DecidableEq, Repr

/-- `ForecastResponse` (route.ts lines 47-92), fields read by
`getHourlyForecast`. -/
structure ForecastResponse where
  list : List ForecastItem
deriving DecidableEq, Repr

structure DailyTemp where
  min : ℚ
  max : ℚ
deriving DecidableEq, Repr

/-- One entry of `OneCallResponse.daily` (route.ts lines 142-178), fields
read by `getDailyForecast`. -/
structure RawDailyItem where
  dt : Int
  temp : DailyTemp
  weather : List WeatherCond
  pop : ℚ
  humidity : ℚ
  wind_speed : ℚ
  uvi : ℚ
deriving DecidableEq, Repr

/-- One entry of `OneCallResponse.alerts` (route.ts lines 179-185); the
source field `end` is a Lean keyword and is carried as `endTs`. -/
structure RawAlert where
  event : String
  start : Int
  endTs : Int
  description : String
deriving DecidableEq, Repr

/-- `OneCallResponse` (route.ts lines 94-186), fields read by
`getDailyForecast` / `getWeatherAlerts`.  `alerts` is optional in the
provider schema (`alerts?`); `none` models the absent field, which is falsy
in the `if (!data.alerts)` guard. -/
structure OneCallResponse where
  daily : List RawDailyItem
  alerts : Option (List RawAlert)
deriving DecidableEq, Repr

/-! ## View models (`weatherService.ts` lines 3-54) -/

/-- `WeatherData` (lines 3-18).  Fields the source rounds are still JS
numbers, hence `ℚ` throughout, with `round`/`floor` coerced back. -/
structure WeatherData where
  location : String
  temperature : ℚ
  condition : String
  humidity : ℚ
  windSpeed : ℚ
  visibility : ℚ
  feelsLike : ℚ
  icon : String
  pressure : ℚ
  uvIndex : Option ℚ
  coordinates : Coord
deriving DecidableEq, Repr

/-- `HourlyForecast` (lines 20-28). -/
structure HourlyForecast where
  time : String
  temperature : ℚ
  condition : String
  humidity : ℚ
  precipitation : ℚ
  windSpeed : ℚ
  icon : String
deriving DecidableEq, Repr

/-- `DailyForecast` (lines 30-41). -/
structure DailyForecast where
  date : String
  day : String
  highTemp : ℚ
  lowTemp : ℚ
  condition : String
  precipitation : ℚ
  humidity : ℚ
  windSpeed : ℚ
  icon : String
  uvIndex : Option ℚ
deriving DecidableEq, Repr

inductive AlertType where
  | severe
  | moderate
  | minor
deriving DecidableEq, Repr

inductive AlertCategory where
  | storm
  | rain
  | wind
  | snow
  | temperature
  | other
deriving DecidableEq, Repr

/-- `WeatherAlert` (lines 43-54). -/
structure WeatherAlert where
  id : String
  type : AlertType
  category : AlertCategory
  title : String
  description : String
  location : String
  severity : ℚ
  startTime : String
  endTime : String
  isActive : Bool
deriving DecidableEq, Repr

/-! ## Browser environment -/

/-- Environment-dependent browser primitives, passed explicitly.
`getDay t` is `new Date(t).getDay()` (weekday in the local timezone, in
`0..6` with 0 = Sunday); `formatHour`, `formatDate`, `formatISO` are the
`Date` formatting calls; `now` is `Date.now()`; `random` is the
`Math.random()` oracle stream, each value in `[0, 1)`. -/
structure JsEnv where
  getDay : Int → Fin 7
  formatHour : Int → String
  formatDate : Int → String
  formatISO : Int → String
  now : Int
  random : Nat → ℚ

/-- `['Sun', 'Mon', 'Tue', 'Wed', 'Thu', 'Fri', 'Sat']` (lines 175, 193). -/
def daysOfWeek : List String :=
  ["Sun", "Mon", "Tue", "Wed", "Thu", "Fri", "Sat"]

/-! ## View-model fetchers (`weatherService.ts` lines 103-268)

Each fetcher wraps its whole body in `try/catch` and returns fallback data
from the catch.  The `fetchWithCache` outcome plus JSON field access is the
fetcher's fallible input, modelled as `Except Unit rawPayload`; a payload
whose `weather` array is empty makes the JS field access `weather[0]` throw
inside the `try`, which the model renders as the normalizer returning
`none`.  Either failure lands in the catch, i.e. the fallback. -/

/-- JS `Array.prototype.map` with a callback that can throw: the first
throwing element aborts the whole map (`none`), which the surrounding
`try/catch` then turns into fallback data. -/
def mapOrThrow {α β : Type} (f : α → Option β) : List α → Option (List β)
  | [] => some []
  | a :: t =>
    match f a, mapOrThrow f t with
    | some b, some bt => some (b :: bt)
    | _, _ => none

/-- Normalization of a current-weather payload (lines 107-121). -/
def normalizeCurrent (data : WeatherResponse) : Option WeatherData :=
  match data.weather with
  | [] => none
  | w :: _ =>
    some { location := data.name ++ ", " ++ data.sys.country
           temperature := ((round data.main.temp : ℤ) : ℚ)
           condition := w.description
           humidity := data.main.humidity
           windSpeed := ((round (data.wind.speed * (3.6 : ℚ)) : ℤ) : ℚ)
           visibility := data.visibility / 1000
           feelsLike := ((round data.main.feels_like : ℤ) : ℚ)
           icon := w.icon
           pressure := data.main.pressure
           uvIndex := none
           coordinates := ⟨data.coord.lat, data.coord.lon⟩ }

/-- Mock current weather (lines 124-135). -/
def mockCurrent (lat lon : ℚ) : WeatherData :=
  { location := "Unknown Location", temperature := 20, condition := "Unknown"
    humidity := 50, windSpeed := 10, visibility := 10, feelsLike := 20
    icon := "01d", pressure := 1013, uvIndex := none
    coordinates := ⟨lat, lon⟩ }

/-- `getCurrentWeather` (lines 103-137). -/
def getCurrentWeather (lat lon : ℚ) (fetched : Except Unit WeatherResponse) :
    WeatherData :=
  match fetched with
  | .error _ => mockCurrent lat lon
  | .ok data =>
    match normalizeCurrent data with
    | some w => w
    | none => mockCurrent lat lon

/-- Normalization of one hourly entry (lines 143-154). -/
def normalizeHourlyItem (env : JsEnv) (item : ForecastItem) :
    Option HourlyForecast :=
  match item.weather with
  | [] => none
  | w :: _ =>
    some { time := env.formatHour (item.dt * 1000)
           temperature := ((round item.main.temp : ℤ) : ℚ)
           condition := w.description
           humidity := item.main.humidity
           precipitation := ((round (item.pop * 100) : ℤ) : ℚ)
           windSpeed := ((round (item.wind.speed * (3.6 : ℚ)) : ℤ) : ℚ)
           icon := w.icon }

/-- One mock hourly entry (lines 157-165).  The `Math.random()` calls of
entry `i` consume oracle indices `5*i .. 5*i+4` in source order.  The
condition pick indexes `['Clear', 'Clouds', 'Rain']` at
`Math.floor(Math.random() * 3)`, always in bounds since `Math.random()`
lands in `[0, 1)`; `getD` carries a default that is never used then. -/
def mockHourlyEntry (env : JsEnv) (i : ℕ) : HourlyForecast :=
  { time := if i = 0 then "Now" else toString i ++ ":00"
    temperature := 18 + env.random (5 * i) * 12
    condition := ["Clear", "Clouds", "Rain"].getD
      (Int.toNat ⌊env.random (5 * i + 1) * 3⌋) "Clear"
    humidity := ((⌊env.random (5 * i + 2) * 40⌋ : ℤ) : ℚ) + 40
    precipitation := ((⌊env.random (5 * i + 3) * 100⌋ : ℤ) : ℚ)
    windSpeed := ((⌊env.random (5 * i + 4) * 20⌋ : ℤ) : ℚ) + 5
    icon := "01d" }

/-- `Array.from({ length: 24 }, ...)` (line 157). -/
def mockHourly (env : JsEnv) : List HourlyForecast :=
  (List.range 24).map (mockHourlyEntry env)

/-- `getHourlyForecast` (lines 139-167): `data.list.slice(0, 24).map(...)`,
any mid-map throw lands in the catch. -/
def getHourlyForecast (env : JsEnv) (fetched : Except Unit ForecastResponse) :
    List HourlyForecast :=
  match fetched with
  | .error _ => mockHourly env
  | .ok data =>
    match mapOrThrow (normalizeHourlyItem env) (data.list.take 24) with
    | some entries => entries
    | none => mockHourly env

/-- Normalization of one daily entry at position `i` (lines 173-189). -/
def normalizeDailyItem (env : JsEnv) (i : ℕ) (item : RawDailyItem) :
    Option DailyForecast :=
  match item.weather with
  | [] => none
  | w :: _ =>
    some { date := env.formatDate (item.dt * 1000)
           day := if i = 0 then "Today"
                  else daysOfWeek.getD (env.getDay (item.dt * 1000)).val ""
           highTemp := ((round item.temp.max : ℤ) : ℚ)
           lowTemp := ((round item.temp.min : ℤ) : ℚ)
           condition := w.description
           precipitation := ((round (item.pop * 100) : ℤ) : ℚ)
           humidity := item.humidity
           windSpeed := ((round (item.wind_speed * (3.6 : ℚ)) : ℤ) : ℚ)
           icon := w.icon
           uvIndex := some item.uvi }

/-- One mock daily entry (lines 192-208); entry `i` is dated
`today.getTime() + i * 24 * 60 * 60 * 1000` and consumes oracle indices
`6*i .. 6*i+5` in source order. -/
def mockDailyEntry (env : JsEnv) (i : ℕ) : DailyForecast :=
  let t : Int := env.now + (i : Int) * (24 * 60 * 60 * 1000)
  { date := env.formatDate t
    day := if i = 0 then "Today" else daysOfWeek.getD (env.getDay t).val ""
    highTemp := 22 + env.random (6 * i) * 8
    lowTemp := 12 + env.random (6 * i + 1) * 8
    condition := ["Clear", "Clouds", "Rain"].getD
      (Int.toNat ⌊env.random (6 * i + 2) * 3⌋) "Clear"
    precipitation := ((⌊env.random (6 * i + 3) * 100⌋ : ℤ) : ℚ)
    humidity := ((⌊env.random (6 * i + 4) * 30⌋ : ℤ) : ℚ) + 50
    windSpeed := ((⌊env.random (6 * i + 5) * 15⌋ : ℤ) : ℚ) + 5
    icon := "01d"
    uvIndex := none }

/-- `Array.from({ length: 7 }, ...)` (line 192). -/
def mockDaily (env : JsEnv) : List DailyForecast :=
  (List.range 7).map (mockDailyEntry env)

/-- `getDailyForecast` (lines 169-210): `data.daily.slice(0, 7).map(...)`
with the entry index threaded through. -/
def getDailyForecast (env : JsEnv) (fetched : Except Unit OneCallResponse) :
    List DailyForecast :=
  match fetched with
  | .error _ => mockDaily env
  | .ok data =>
    match mapOrThrow (fun p => normalizeDailyItem env p.1 p.2)
        (data.daily.take 7).enum with
    | some entries => entries
    | none => mockDaily env

/-! ## Alert classification (`getWeatherAlerts`, lines 212-268) -/

/-- JS `String.prototype.toLowerCase`, characterwise on the ASCII event
texts involved. -/
def jsToLower (s : String) : String :=
  ⟨s.data.map Char.toLower⟩

/-- `pat` matches at the head of `s`. -/
def charsStartWith : List Char → List Char → Bool
  | _, [] => true
  | [], _ :: _ => false
  | c :: s, c' :: pat => c = c' && charsStartWith s pat

/-- `pat` occurs contiguously somewhere in `s`. -/
def charsContain : List Char → List Char → Bool
  | [], pat => pat.isEmpty
  | c :: s, pat => charsStartWith (c :: s) pat || charsContain s pat

/-- JS `String.prototype.includes`. -/
def jsIncludes (s sub : String) : Bool :=
  charsContain s.data sub.data

/-- Severity-tier chain (lines 228-237) on the lowercased event text.  The
initial `type = 'moderate'; severity = 5` of the source is dead: the
if/else-if/else chain overwrites both in every case. -/
def alertTierOf (event : String) : AlertType × ℚ :=
  if jsIncludes event "severe" || jsIncludes event "extreme" ||
      jsIncludes event "warning" then (.severe, 8)
  else if jsIncludes event "watch" || jsIncludes event "advisory" then
    (.moderate, 6)
  else (.minor, 3)

/-- Category chain (lines 239-249) on the lowercased event text; the
initial `category = 'other'` survives exactly when no rule matches. -/
def alertCategoryOf (event : String) : AlertCategory :=
  if jsIncludes event "storm" || jsIncludes event "thunder" then .storm
  else if jsIncludes event "rain" || jsIncludes event "flood" then .rain
  else if jsIncludes event "wind" then .wind
  else if jsIncludes event "snow" || jsIncludes event "winter" then .snow
  else if jsIncludes event "temperature" || jsIncludes event "heat" ||
      jsIncludes event "cold" then .temperature
  else .other

/-- Construction of one `WeatherAlert` (lines 220-262) from the raw alert
at position `index`. -/
def classifyAlert (env : JsEnv) (index : ℕ) (alert : RawAlert) : WeatherAlert :=
  let event := jsToLower alert.event
  let tier := alertTierOf event
  { id := "alert-" ++ toString index
    type := tier.1
    category := alertCategoryOf event
    title := alert.event
    description := alert.description
    location := "Current Area"
    severity := tier.2
    startTime := env.formatISO (alert.start * 1000)
    endTime := env.formatISO (alert.endTs * 1000)
    isActive := true }

/-- `getWeatherAlerts` (lines 212-268): absent `alerts` field and any
thrown error both yield `[]`. -/
def getWeatherAlerts (env : JsEnv) (fetched : Except Unit OneCallResponse) :
    List WeatherAlert :=
  match fetched with
  | .error _ => []
  | .ok data =>
    match data.alerts with
    | none => []
    | some alerts => alerts.enum.map (fun p => classifyAlert env p.1 p.2)

/-- Spec-side category rules: "an ordered list of (predicate, result) rules
evaluated in fixed sequence, first match wins", in the spec's fixed order
storm, rain, wind, snow, temperature, default other.  Written from the
spec's words, to be compared with the source chain `alertCategoryOf`. -/
def specCategoryRules : List ((String → Bool) × AlertCategory) :=
  [(fun e => jsIncludes e "storm" || jsIncludes e "thunder", .storm),
   (fun e => jsIncludes e "rain" || jsIncludes e "flood", .rain),
   (fun e => jsIncludes e "wind", .wind),
   (fun e => jsIncludes e "snow" || jsIncludes e "winter", .snow),
   (fun e => jsIncludes e "temperature" || jsIncludes e "heat" ||
      jsIncludes e "cold", .temperature)]

/-- First-match evaluation of an ordered rule list, defaulting to `other`. -/
def firstMatch : List ((String → Bool) × AlertCategory) → String → AlertCategory
  | [], _ => .other
  | (p, c) :: t, e => if p e then c else firstMatch t e

/-- The spec's category classifier: ordered rules, first match wins. -/
def specAlertCategory (event : String) : AlertCategory :=
  firstMatch specCategoryRules event

/-! ## City search (`getWeatherByCity`, lines 270-297) -/

/-- One geocoding result: `{ lat, lon, name, country }`. -/
structure GeoEntry where
  lat : ℚ
  lon : ℚ
  name : String
  country : String
deriving DecidableEq, Repr

/-- `getWeatherByCity` (lines 270-297).  `geo` is the outcome of the
geocoding call: `.error statusText` when the response was not ok, `.ok l`
with the (possibly empty) result array otherwise.  `fetched` feeds the
subsequent `getCurrentWeather` call.  Every thrown error is rethrown by the
catch as `Failed to get weather for ${cityName}: ${message}`. -/
def getWeatherByCity (cityName : String) (geo : Except String (List GeoEntry))
    (fetched : Except Unit WeatherResponse) :
    Except String (WeatherData × Coord) :=
  match geo with
  | .error statusText =>
    .error ("Failed to get weather for " ++ cityName ++
      ": Failed to geocode city: " ++ statusText)
  | .ok [] =>
    .error ("Failed to get weather for " ++ cityName ++ ": City \"" ++
      cityName ++ "\" not found")
  | .ok (g :: _) =>
    let weather := getCurrentWeather g.lat g.lon fetched
    .ok ({ weather with location := g.name ++ ", " ++ g.country },
      ⟨g.lat, g.lon⟩)

/-! ## Dashboard search handling (`page.tsx`, `handleSearch`, lines 128-170) -/

/-- The React state touched by `handleSearch`: the four view models, the
transient search error, and the user-location label. -/
structure DashboardState where
  weather : Option WeatherData
  hourlyForecast : List HourlyForecast
  dailyForecast : List DailyForecast
  alerts : List WeatherAlert
  searchError : Option String
  userLocation : Option (ℚ × ℚ × String)
deriving DecidableEq, Repr

/-- `handleSearch` (page.tsx lines 128-170) as a state transition.
`result` is the settled outcome of `getWeatherByCity`; on success `hourly`,
`daily` and `alerts` are the settled sibling fetches for the new
coordinates (each internally fallback-protected, so they cannot fail).
The second component is the delay of the scheduled `setTimeout` that will
clear the error message: `some 3000` exactly on the failure path. -/
def handleSearch (s : DashboardState)
    (result : Except String (WeatherData × Coord))
    (hourly : List HourlyForecast) (daily : List DailyForecast)
    (alerts : List WeatherAlert) : DashboardState × Option Int :=
  match result with
  | .ok r =>
    ({ s with weather := some r.1
              userLocation := some (r.2.lat, r.2.lon, r.1.location)
              hourlyForecast := hourly
              dailyForecast := daily
              alerts := alerts
              searchError := none }, none)
  | .error msg =>
    ({ s with searchError := some msg }, some 3000)

/-- The body of the scheduled timeout (page.tsx lines 165-167):
`setSearchError(null)`. -/
def clearSearchError (s : DashboardState) : DashboardState :=
  { s with searchError := none }

/-! ## Internal proxy endpoint (`route.ts`, `GET`, lines 188-262) -/

/-- The three upstream endpoints the proxy can select. -/
inductive ProxyType where
  | current
  | forecast
  | onecall
deriving DecidableEq, Repr

/-- An HTTP response of the proxy: raw provider JSON, or a structured
`{ error }` body with a status code. -/
inductive ProxyResponse (α : Type) where
  | json (data : α)
  | err (status : ℕ) (error : String)
deriving DecidableEq, Repr

/-- JS falsiness of `searchParams.get(...)`: `null` (absent) or `""`. -/
def jsFalsy (o : Option String) : Bool :=
  o.getD "" = ""

/-- Outcome of one upstream `fetch` + `json()` inside the handler:
`.error statusText` models a non-ok response (the handler throws
`OpenWeatherMap API error: ${statusText}`) or any other throw. -/
def proxyCall {α : Type} (upstream : ProxyType → Except String α)
    (t : ProxyType) : ProxyResponse α :=
  match upstream t with
  | .ok d => .json d
  | .error _ => .err 500 "Failed to fetch weather data"

/-- `GET` (route.ts lines 188-262).  Checks `lat`/`lon` (400), then the
server-held API key (500), then switches on
`searchParams.get('type') || 'current'`; an unknown type is a 400, and any
throw — in particular an upstream failure — is caught and answered with the
fixed generic 500 body (line 258), never the provider's error text.
`resolvedType` is `searchParams.get('type') || 'current'` (line 193):
absent or empty `type` defaults to `current`. -/
def resolvedType (typeParam : Option String) : String :=
  if jsFalsy typeParam then "current" else typeParam.getD ""

def GET {α : Type} (lat lon typeParam apiKey : Option String)
    (upstream : ProxyType → Except String α) : ProxyResponse α :=
  if jsFalsy lat || jsFalsy lon then
    .err 400 "Latitude and longitude are required"
  else if jsFalsy apiKey then
    .err 500 "OpenWeatherMap API key is not configured"
  else if resolvedType typeParam = "current" then proxyCall upstream .current
  else if resolvedType typeParam = "forecast" then proxyCall upstream .forecast
  else if resolvedType typeParam = "onecall" then proxyCall upstream .onecall
  else .err 400 "Invalid type parameter. Use \"current\", \"forecast\", or \"onecall\""

/-! ## Cache-usage traces (for the provenance invariant)

The only statement in the service that writes the cache is the
`this.cache.set(...)` on the success path of `fetchWithCache` (line 94);
the fallback branches of the fetchers construct their mock values without
touching the cache.  A trace is the sequence of cache-affecting operations
a session performs: `fetchWithCache` invocations and `clearCache`. -/

inductive CacheOp (α : Type) where
  | fetch (endpoint : String) (params : Params) (now : Int)
      (net : Except Unit α)
  | clear
deriving Repr

/-- Effect of one operation on the cache. -/
def stepCache {α : Type} (c : Cache α) : CacheOp α → Cache α
  | .fetch e p now net => (fetchWithCache c e p now net).2
  | .clear => clearCache c

/-- Cache after a trace of operations, starting from `c`.  The service
starts with `new Map()`, i.e. `runOps [] ops`. -/
def runOps {α : Type} (c : Cache α) : List (CacheOp α) → Cache α
  | [] => c
  | op :: t => runOps (stepCache c op) t

/-- The payloads (with their delivery times) of the successful upstream
responses occurring in a trace. -/
def okResponses {α : Type} (ops : List (CacheOp α)) : List (α × Int) :=
  ops.filterMap (fun op =>
    match op with
    | .fetch _ _ now (.ok d) => some (d, now)
    | _ => none)

/-! ## Helper lemmas -/

theorem lookupParam_eq_none {k : String} :
    ∀ (p : Params), k ∉ p.map Prod.fst → lookupParam k p = none := by
  intro p
  induction p with
  | nil => intro _; rfl
  | cons kv t ih =>
    intro h
    simp only [List.map_cons, List.mem_cons] at h
    push_neg at h
    simp only [lookupParam]
    rw [if_neg (fun hh => h.1 hh.symm)]
    exact ih h.2

/-- Two insertion-ordered parameter records with the same key sequence
(without duplicates) and the same lookups are equal. -/
theorem params_eq_of_lookup :
    ∀ (p₁ p₂ : Params), p₁.map Prod.fst = p₂.map Prod.fst →
      (p₁.map Prod.fst).Nodup →
      (∀ k, lookupParam k p₁ = lookupParam k p₂) → p₁ = p₂ := by
  intro p₁
  induction p₁ with
  | nil =>
    intro p₂ hmap _ _
    cases p₂ with
    | nil => rfl
    | cons kv t => simp at hmap
  | cons kv t ih =>
    intro p₂ hmap hnd hlk
    cases p₂ with
    | nil => simp at hmap
    | cons kv' t' =>
      obtain ⟨k, v⟩ := kv
      obtain ⟨k', v'⟩ := kv'
      simp only [List.map_cons, List.cons.injEq] at hmap
      obtain ⟨hk, ht⟩ := hmap
      subst hk
      have hv : some v = some v' := by
        have h := hlk k
        simpa [lookupParam] using h
      obtain rfl : v = v' := Option.some.inj hv
      simp only [List.map_cons, List.nodup_cons] at hnd
      obtain ⟨hkt, hndt⟩ := hnd
      have hlk' : ∀ k₀, lookupParam k₀ t = lookupParam k₀ t' := by
        intro k₀
        by_cases hk0 : k₀ = k
        · subst hk0
          rw [lookupParam_eq_none t hkt, lookupParam_eq_none t' (ht ▸ hkt)]
        · have h := hlk k₀
          simp only [lookupParam] at h
          rwa [if_neg (fun hh => hk0 hh.symm),
            if_neg (fun hh => hk0 hh.symm)] at h
      rw [ih t' ht hndt hlk']

theorem mapGet_mapSet_self {α : Type} :
    ∀ (c : Cache α) (k : String) (e : CacheEntry α),
      mapGet (mapSet c k e) k = some e := by
  intro c k e
  induction c with
  | nil => simp [mapSet, mapGet]
  | cons kv t ih =>
    obtain ⟨k', e'⟩ := kv
    by_cases h : k' = k
    · simp [mapSet, mapGet, h]
    · simp only [mapSet, mapGet]
      rw [if_neg h, mapGet]
      rw [if_neg h]
      exact ih

theorem mem_mapSet {α : Type} :
    ∀ (c : Cache α) (k : String) (e : CacheEntry α) (x : String × CacheEntry α),
      x ∈ mapSet c k e → x ∈ c ∨ x = (k, e) := by
  intro c k e x
  induction c with
  | nil =>
    intro h
    simp only [mapSet] at h
    right
    simpa using h
  | cons kv t ih =>
    intro h
    obtain ⟨k', e'⟩ := kv
    simp only [mapSet] at h
    by_cases hk : k' = k
    · rw [if_pos hk] at h
      rcases List.mem_cons.1 h with h1 | h2
      · right; exact h1
      · left; exact List.mem_cons_of_mem _ h2
    · rw [if_neg hk] at h
      rcases List.mem_cons.1 h with h1 | h2
      · left; exact h1 ▸ List.mem_cons_self _ _
      · rcases ih h2 with h3 | h4
        · left; exact List.mem_cons_of_mem _ h3
        · right; exact h4

/-- Every entry present after a `fetchWithCache` step was already present
or was just written from the successful network response. -/
theorem mem_fetchWithCache_snd {α : Type} (c : Cache α) (e : String)
    (p : Params) (now : Int) (net : Except Unit α)
    (x : String × CacheEntry α)
    (hx : x ∈ (fetchWithCache c e p now net).2) :
    x ∈ c ∨ (net = .ok x.2.data ∧ now = x.2.timestamp) := by
  simp only [fetchWithCache] at hx
  split at hx
  · split at hx
    · cases net with
      | ok d =>
        rcases mem_mapSet _ _ _ _ hx with h1 | h2
        · left; exact h1
        · right; rw [h2]; exact ⟨rfl, rfl⟩
      | error u => left; exact hx
    · left; exact hx
  · cases net with
    | ok d =>
      rcases mem_mapSet _ _ _ _ hx with h1 | h2
      · left; exact h1
      · right; rw [h2]; exact ⟨rfl, rfl⟩
    | error u => left; exact hx

/-- Provenance over a trace: an entry of the final cache was already in the
initial cache or stems from a successful response in the trace. -/
theorem cache_entry_source {α : Type} :
    ∀ (ops : List (CacheOp α)) (c : Cache α) (x : String × CacheEntry α),
      x ∈ runOps c ops →
      x ∈ c ∨ (x.2.data, x.2.timestamp) ∈ okResponses ops := by
  intro ops
  induction ops with
  | nil => intro c x h; left; exact h
  | cons op t ih =>
    intro c x h
    rw [runOps] at h
    rcases ih (stepCache c op) x h with h1 | h2
    · cases op with
      | clear => simp [stepCache, clearCache] at h1
      | fetch e p now net =>
        rcases mem_fetchWithCache_snd _ _ _ _ _ _ h1 with hc | ⟨hnet, hts⟩
        · left; exact hc
        · right
          subst hnet
          simp only [okResponses, List.filterMap_cons]
          rw [← hts]
          exact List.mem_cons_self _ _
    · right
      simp only [okResponses, List.filterMap_cons]
      cases op with
      | clear => exact h2
      | fetch e p now net =>
        cases net with
        | ok d => exact List.mem_cons_of_mem _ h2
        | error u => exact h2

theorem mapOrThrow_length {α β : Type} (f : α → Option β) :
    ∀ (l : List α) (l' : List β), mapOrThrow f l = some l' →
      l'.length = l.length := by
  intro l
  induction l with
  | nil =>
    intro l' h
    simp only [mapOrThrow, Option.some.injEq] at h
    simp [← h]
  | cons a t ih =>
    intro l' h
    simp only [mapOrThrow] at h
    cases hfa : f a with
    | none => rw [hfa] at h; simp at h
    | some b =>
      cases hmt : mapOrThrow f t with
      | none => rw [hfa, hmt] at h; simp at h
      | some bt =>
        rw [hfa, hmt] at h
        simp only [Option.some.injEq] at h
        rw [← h]
        simp [ih bt hmt]

theorem mapOrThrow_get? {α β : Type} (f : α → Option β) :
    ∀ (l : List α) (l' : List β), mapOrThrow f l = some l' →
      ∀ (i : ℕ) (b : β), l'.get? i = some b →
        ∃ a, l.get? i = some a ∧ f a = some b := by
  intro l
  induction l with
  | nil =>
    intro l' h i b hb
    simp only [mapOrThrow, Option.some.injEq] at h
    rw [← h] at hb
    simp at hb
  | cons a t ih =>
    intro l' h i b hb
    simp only [mapOrThrow] at h
    cases hfa : f a with
    | none => rw [hfa] at h; simp at h
    | some b0 =>
      cases hmt : mapOrThrow f t with
      | none => rw [hfa, hmt] at h; simp at h
      | some bt =>
        rw [hfa, hmt] at h
        simp only [Option.some.injEq] at h
        rw [← h] at hb
        cases i with
        | zero =>
          simp only [List.get?_cons_zero, Option.some.injEq] at hb
          exact ⟨a, rfl, hb ▸ hfa⟩
        | succ n =>
          simp only [List.get?_cons_succ] at hb
          obtain ⟨a', ha', hfa'⟩ := ih bt hmt n b hb
          exact ⟨a', by simpa using ha', hfa'⟩

/-- A concrete browser environment used to instantiate theorems on
closed inputs. -/
def testEnv : JsEnv where
  getDay := fun _ => ⟨2, by omega⟩
  formatHour := fun t => toString t
  formatDate := fun t => toString t
  formatISO := fun t => toString t
  now := 0
  random := fun _ => 0

/-! ## Claim theorems -/

/-- Claim C1, counterexample: the parameter mappings
`[lat ↦ 1, lon ↦ 2]` and `[lon ↦ 2, lat ↦ 1]` hold exactly the same
key-value pairs in different insertion orders, yet `getCacheKey` derives
different cache keys for them, because `JSON.stringify` serializes in
insertion order.  In particular the key derivation is not
order-independent, contrary to the claim. -/
theorem getCacheKey_order_counterexample :
    ([("lat", JVal.num 1), ("lon", JVal.num 2)] : Params).Perm
      [("lon", JVal.num 2), ("lat", JVal.num 1)] ∧
    getCacheKey "weather" [("lat", JVal.num 1), ("lon", JVal.num 2)] ≠
      getCacheKey "weather" [("lon", JVal.num 2), ("lat", JVal.num 1)] ∧
    ¬ specOrderIndependent getCacheKey := by
  refine ⟨by decide, by decide, fun h => ?_⟩
  exact absurd
    (h "weather" [("lat", JVal.num 1), ("lon", JVal.num 2)]
      [("lon", JVal.num 2), ("lat", JVal.num 1)] (by decide)) (by decide)

/-- Claim C1, amended: the cache key of `(endpoint, params)` is derived
from the insertion-ordered serialization of `params`, so two parameter
mappings produce equal cache keys when they carry the same keys in the
same insertion order (without duplicates, as JS records) with the same
value at every key; mappings equal merely as sets of pairs but differently
ordered may produce different keys. -/
theorem getCacheKey_insertion_order (e : String) (p₁ p₂ : Params)
    (hkeys : p₁.map Prod.fst = p₂.map Prod.fst)
    (hnd : (p₁.map Prod.fst).Nodup)
    (hvals : ∀ k, lookupParam k p₁ = lookupParam k p₂) :
    getCacheKey e p₁ = getCacheKey e p₂ := by
  rw [params_eq_of_lookup p₁ p₂ hkeys hnd hvals]

/-- Witness for `getCacheKey_insertion_order` at a concrete input. -/
theorem getCacheKey_insertion_order_witness :
    getCacheKey "weather"
      [("lat", JVal.num 37), ("lon", JVal.num (-122)),
       ("type", JVal.str "current")] =
    getCacheKey "weather"
      [("lat", JVal.num 37), ("lon", JVal.num (-122)),
       ("type", JVal.str "current")] :=
  getCacheKey_insertion_order "weather" _ _ rfl (by decide) (fun _ => rfl)

/-- Claim C2: a cache entry written at time `T` under the key of
`(endpoint, params)` is returned unchanged (cache untouched) by a read at
time `now` when `now - T ≤ 600000` ms, and is treated as absent when
`now - T > 600000` ms: the delivered result is then exactly the outcome of
the fresh network fetch, so an expired entry is never returned. -/
theorem fetchWithCache_expiry {α : Type} (c : Cache α) (e : String)
    (p : Params) (d : α) (T now : Int) (net : Except Unit α) :
    (now - T ≤ 600000 →
      fetchWithCache (mapSet c (getCacheKey e p) ⟨d, T⟩) e p now net =
        (Except.ok d, mapSet c (getCacheKey e p) ⟨d, T⟩)) ∧
    (now - T > 600000 →
      (fetchWithCache (mapSet c (getCacheKey e p) ⟨d, T⟩) e p now net).1 =
        net) := by
  have hget := mapGet_mapSet_self c (getCacheKey e p) ⟨d, T⟩
  constructor
  · intro hle
    have hexp : isDataExpired now T = false := by
      simp only [isDataExpired, CACHE_DURATION]
      simp only [decide_eq_false_iff_not, not_lt]
      omega
    simp [fetchWithCache, hget, hexp]
  · intro hgt
    have hexp : isDataExpired now T = true := by
      simp only [isDataExpired, CACHE_DURATION]
      simp only [decide_eq_true_eq]
      omega
    cases net with
    | ok d' => simp [fetchWithCache, hget, hexp]
    | error u => simp [fetchWithCache, hget, hexp]

/-- Witness for `fetchWithCache_expiry`: a hit exactly at the 600000 ms
boundary, and a miss one millisecond past it. -/
theorem fetchWithCache_expiry_witness :
    fetchWithCache (mapSet ([] : Cache ℕ) (getCacheKey "weather" [])
        ⟨7, 0⟩) "weather" [] 600000 (Except.error ()) =
      (Except.ok 7, mapSet [] (getCacheKey "weather" []) ⟨7, 0⟩) ∧
    (fetchWithCache (mapSet ([] : Cache ℕ) (getCacheKey "weather" [])
        ⟨7, 0⟩) "weather" [] 600001 (Except.error ())).1 =
      Except.error () :=
  ⟨(fetchWithCache_expiry [] "weather" [] 7 0 600000 (Except.error ())).1
      (by decide),
   (fetchWithCache_expiry [] "weather" [] 7 0 600001 (Except.error ())).2
      (by decide)⟩

/-- Claim C3: each of the four view-model fetchers is a total function of
its fallible input — a failed fetch (`.error`) or a payload its
normalization rejects both yield exactly the fetcher's fallback value, and
that fallback is structurally complete: a fully populated current-weather
record, 24 hourly entries, 7 daily entries, and the empty alert list. -/
theorem fetchers_fallback (env : JsEnv) (lat lon : ℚ) :
    getCurrentWeather lat lon (Except.error ()) = mockCurrent lat lon ∧
    (∀ d : WeatherResponse, normalizeCurrent d = none →
      getCurrentWeather lat lon (Except.ok d) = mockCurrent lat lon) ∧
    getHourlyForecast env (Except.error ()) = mockHourly env ∧
    (∀ d : ForecastResponse,
      mapOrThrow (normalizeHourlyItem env) (d.list.take 24) = none →
      getHourlyForecast env (Except.ok d) = mockHourly env) ∧
    (mockHourly env).length = 24 ∧
    getDailyForecast env (Except.error ()) = mockDaily env ∧
    (∀ d : OneCallResponse,
      mapOrThrow (fun p => normalizeDailyItem env p.1 p.2)
        (d.daily.take 7).enum = none →
      getDailyForecast env (Except.ok d) = mockDaily env) ∧
    (mockDaily env).length = 7 ∧
    getWeatherAlerts env (Except.error ()) = [] ∧
    (∀ daily, getWeatherAlerts env (Except.ok ⟨daily, none⟩) = []) := by
  refine ⟨rfl, ?_, rfl, ?_, ?_, rfl, ?_, ?_, rfl, fun _ => rfl⟩
  · intro d h
    simp [getCurrentWeather, h]
  · intro d h
    simp [getHourlyForecast, h]
  · simp [mockHourly]
  · intro d h
    simp [getDailyForecast, h]
  · simp [mockDaily]

/-- Witness for `fetchers_fallback`: malformed payloads (empty `weather`
arrays, which make the JS field access `weather[0]` throw) produce the
fallback for the current, hourly and daily fetchers. -/
theorem fetchers_fallback_witness :
    getCurrentWeather 0 0
      (Except.ok ⟨⟨0, 0⟩, [], ⟨20, 19, 1013, 50⟩, 10000, ⟨10⟩, ⟨"US"⟩,
        "Test"⟩) = mockCurrent 0 0 ∧
    getHourlyForecast testEnv
      (Except.ok ⟨[⟨0, ⟨20, 50⟩, [], ⟨10⟩, 0⟩]⟩) = mockHourly testEnv ∧
    getDailyForecast testEnv
      (Except.ok ⟨[⟨0, ⟨10, 20⟩, [], 0, 50, 10, 0⟩], none⟩) =
      mockDaily testEnv :=
  ⟨(fetchers_fallback testEnv 0 0).2.1 _ rfl,
   (fetchers_fallback testEnv 0 0).2.2.2.1 _ rfl,
   (fetchers_fallback testEnv 0 0).2.2.2.2.2.2.1 _ rfl⟩

/-- Claim C4: the category rules of the alert classifier are exactly the
spec's ordered first-match rule list (storm/thunder, rain/flood, wind,
snow/winter, temperature/heat/cold, default other), every alert is scored
8/6/3 according to its severe/moderate/minor tier, and the three spec
examples classify as stated: "Severe Thunderstorm Warning" → severe/storm
(8), "Heavy Rain Advisory" → moderate/rain (6), "Wind Advisory" →
moderate/wind (6). -/
theorem alert_classification :
    (∀ e, alertCategoryOf e = specAlertCategory e) ∧
    (∀ e, alertTierOf e = (AlertType.severe, 8) ∨
      alertTierOf e = (AlertType.moderate, 6) ∨
      alertTierOf e = (AlertType.minor, 3)) ∧
    (∀ env i st en de,
      (classifyAlert env i ⟨"Severe Thunderstorm Warning", st, en, de⟩).type
          = AlertType.severe ∧
      (classifyAlert env i
          ⟨"Severe Thunderstorm Warning", st, en, de⟩).category
          = AlertCategory.storm ∧
      (classifyAlert env i
          ⟨"Severe Thunderstorm Warning", st, en, de⟩).severity = 8) ∧
    (∀ env i st en de,
      (classifyAlert env i ⟨"Heavy Rain Advisory", st, en, de⟩).type
          = AlertType.moderate ∧
      (classifyAlert env i ⟨"Heavy Rain Advisory", st, en, de⟩).category
          = AlertCategory.rain ∧
      (classifyAlert env i ⟨"Heavy Rain Advisory", st, en, de⟩).severity
          = 6) ∧
    (∀ env i st en de,
      (classifyAlert env i ⟨"Wind Advisory", st, en, de⟩).type
          = AlertType.moderate ∧
      (classifyAlert env i ⟨"Wind Advisory", st, en, de⟩).category
          = AlertCategory.wind ∧
      (classifyAlert env i ⟨"Wind Advisory", st, en, de⟩).severity = 6) := by
  refine ⟨fun e => rfl, fun e => ?_, fun env i st en de => ⟨rfl, rfl, rfl⟩,
    fun env i st en de => ⟨rfl, rfl, rfl⟩,
    fun env i st en de => ⟨rfl, rfl, rfl⟩⟩
  unfold alertTierOf
  split_ifs <;> simp

/-- Claim C5: regardless of the upstream payload (and also on the fallback
path), `getHourlyForecast` returns at most 24 entries and
`getDailyForecast` returns at most 7. -/
theorem forecast_length_bounds (env : JsEnv) :
    (∀ fetched, (getHourlyForecast env fetched).length ≤ 24) ∧
    (∀ fetched, (getDailyForecast env fetched).length ≤ 7) := by
  constructor
  · intro fetched
    cases fetched with
    | error u => simp [getHourlyForecast, mockHourly]
    | ok d =>
      simp only [getHourlyForecast]
      cases h : mapOrThrow (normalizeHourlyItem env) (d.list.take 24) with
      | none => simp [mockHourly]
      | some l =>
        rw [mapOrThrow_length _ _ _ h, List.length_take]
        exact min_le_left _ _
  · intro fetched
    cases fetched with
    | error u => simp [getDailyForecast, mockDaily]
    | ok d =>
      simp only [getDailyForecast]
      cases h : mapOrThrow (fun p => normalizeDailyItem env p.1 p.2)
          (d.daily.take 7).enum with
      | none => simp [mockDaily]
      | some l =>
        rw [mapOrThrow_length _ _ _ h, List.enum_length, List.length_take]
        exact min_le_left _ _

/-- Claim C6: a city search whose geocoding returns zero results fails with
the not-found error; `handleSearch` then leaves the four displayed view
models (current weather, hourly, daily, alerts) unchanged, surfaces the
message as the transient search error, schedules its clearing after
3000 ms, and the scheduled clearing removes it. -/
theorem citySearch_notFound (s : DashboardState) (city : String)
    (fetched : Except Unit WeatherResponse) (h : List HourlyForecast)
    (d : List DailyForecast) (a : List WeatherAlert) :
    getWeatherByCity city (Except.ok []) fetched =
      Except.error ("Failed to get weather for " ++ city ++ ": City \"" ++
        city ++ "\" not found") ∧
    (∀ msg : String,
      (handleSearch s (Except.error msg) h d a).1.weather = s.weather ∧
      (handleSearch s (Except.error msg) h d a).1.hourlyForecast =
        s.hourlyForecast ∧
      (handleSearch s (Except.error msg) h d a).1.dailyForecast =
        s.dailyForecast ∧
      (handleSearch s (Except.error msg) h d a).1.alerts = s.alerts ∧
      (handleSearch s (Except.error msg) h d a).1.searchError = some msg ∧
      (handleSearch s (Except.error msg) h d a).2 = some 3000 ∧
      (clearSearchError
        (handleSearch s (Except.error msg) h d a).1).searchError = none) :=
  ⟨rfl, fun _ => ⟨rfl, rfl, rfl, rfl, rfl, rfl, rfl⟩⟩

/-- Each upstream call of the proxy answers with the raw JSON or the fixed
generic 500 body. -/
theorem proxyCall_shape {α : Type} (u : ProxyType → Except String α)
    (t : ProxyType) :
    (∃ d, proxyCall u t = ProxyResponse.json d) ∨
    proxyCall u t = .err 500 "Failed to fetch weather data" := by
  cases h : u t with
  | ok d => exact Or.inl ⟨d, by simp [proxyCall, h]⟩
  | error s => exact Or.inr (by simp [proxyCall, h])

/-- Claim C7: every proxy response is either the raw provider JSON or one
of the structured error bodies — 400 for missing `lat`/`lon` or an invalid
`type`, 500 for a missing API key or an upstream failure — and an upstream
failure is always answered with the fixed generic string, independent of
the provider's error text. -/
theorem proxy_response_shape {α : Type} (lat lon ty key : Option String)
    (u : ProxyType → Except String α) :
    ((∃ d, GET lat lon ty key u = ProxyResponse.json d) ∨
     GET lat lon ty key u = .err 400 "Latitude and longitude are required" ∨
     GET lat lon ty key u =
       .err 400 "Invalid type parameter. Use \"current\", \"forecast\", or \"onecall\"" ∨
     GET lat lon ty key u = .err 500 "OpenWeatherMap API key is not configured" ∨
     GET lat lon ty key u = .err 500 "Failed to fetch weather data") ∧
    (∀ s : String,
      GET (some "37.77") (some "-122.41") (some "current") (some "k")
        (fun _ : ProxyType => (Except.error s : Except String α)) =
        .err 500 "Failed to fetch weather data" ∧
      GET (some "37.77") (some "-122.41") (some "forecast") (some "k")
        (fun _ : ProxyType => (Except.error s : Except String α)) =
        .err 500 "Failed to fetch weather data" ∧
      GET (some "37.77") (some "-122.41") (some "onecall") (some "k")
        (fun _ : ProxyType => (Except.error s : Except String α)) =
        .err 500 "Failed to fetch weather data") := by
  constructor
  · unfold GET
    split_ifs <;>
      first
        | exact Or.inr (Or.inl rfl)
        | exact Or.inr (Or.inr (Or.inl rfl))
        | exact Or.inr (Or.inr (Or.inr (Or.inl rfl)))
        | (rcases proxyCall_shape u .current with ⟨dd, hd⟩ | he
           · exact Or.inl ⟨dd, hd⟩
           · exact Or.inr (Or.inr (Or.inr (Or.inr he))))
        | (rcases proxyCall_shape u .forecast with ⟨dd, hd⟩ | he
           · exact Or.inl ⟨dd, hd⟩
           · exact Or.inr (Or.inr (Or.inr (Or.inr he))))
        | (rcases proxyCall_shape u .onecall with ⟨dd, hd⟩ | he
           · exact Or.inl ⟨dd, hd⟩
           · exact Or.inr (Or.inr (Or.inr (Or.inr he))))
  · exact fun s => ⟨rfl, rfl, rfl⟩

/-- Claim C8: current-weather normalization computes the wind speed as
`Math.round(wind.speed * 3.6)` (m/s to km/h), and an input of 10 m/s
yields 36 km/h. -/
theorem windSpeed_conversion :
    (∀ (lat lon : ℚ) (co : Coord) (w : WeatherCond)
       (rest : List WeatherCond) (m : MainInfo) (vis ws : ℚ)
       (sy : SysInfo) (nm : String),
      (getCurrentWeather lat lon
          (Except.ok ⟨co, w :: rest, m, vis, ⟨ws⟩, sy, nm⟩)).windSpeed =
        ((round (ws * (3.6 : ℚ)) : ℤ) : ℚ)) ∧
    (getCurrentWeather 0 0
        (Except.ok ⟨⟨0, 0⟩, [⟨"clear sky", "01d"⟩], ⟨20, 19, 1013, 50⟩,
          10000, ⟨10⟩, ⟨"US"⟩, "Test"⟩)).windSpeed = 36 := by
  constructor
  · intro lat lon co w rest m vis ws sy nm
    rfl
  · show ((round ((10 : ℚ) * (3.6 : ℚ)) : ℤ) : ℚ) = 36
    norm_num [round_eq]

/-- Day labels of the mock daily forecast: "Today" at index 0, else the
weekday of `now + i * 86400000`; the date label uses the same timestamp. -/
theorem mockDaily_day_labels (env : JsEnv) (i : ℕ) (entry : DailyForecast)
    (hget : (mockDaily env).get? i = some entry) :
    (i = 0 → entry.day = "Today") ∧
    (0 < i → ∃ t : Int, entry.date = env.formatDate t ∧
      entry.day = daysOfWeek.getD (env.getDay t).val "") := by
  have hi : i < 7 := by
    by_contra hge
    rw [List.get?_eq_none.2 (by simpa [mockDaily] using Nat.le_of_not_lt hge)]
      at hget
    exact Option.noConfusion hget
  rw [mockDaily, List.get?_map, List.get?_range hi] at hget
  simp only [Option.map_some', Option.some.injEq] at hget
  subst hget
  constructor
  · intro h0
    subst h0
    rfl
  · intro hpos
    refine ⟨env.now + (i : Int) * (24 * 60 * 60 * 1000), rfl, ?_⟩
    simp only [mockDailyEntry]
    rw [if_neg (Nat.pos_iff_ne_zero.mp hpos)]

/-- Claim C9: in every daily forecast `getDailyForecast` produces — on the
normalized path and on the fallback path alike — the entry at index 0
carries the day label "Today" regardless of the weekday of its timestamp,
and every entry at a positive index carries the weekday name derived (via
the environment's `getDay`) from the same timestamp its date label is
formatted from. -/
theorem daily_day_labels (env : JsEnv)
    (fetched : Except Unit OneCallResponse) (i : ℕ) (entry : DailyForecast)
    (hget : (getDailyForecast env fetched).get? i = some entry) :
    (i = 0 → entry.day = "Today") ∧
    (0 < i → ∃ t : Int, entry.date = env.formatDate t ∧
      entry.day = daysOfWeek.getD (env.getDay t).val "") := by
  cases fetched with
  | error u =>
    exact mockDaily_day_labels env i entry hget
  | ok d =>
    simp only [getDailyForecast] at hget
    cases hm : mapOrThrow (fun p => normalizeDailyItem env p.1 p.2)
        (d.daily.take 7).enum with
    | none =>
      rw [hm] at hget
      exact mockDaily_day_labels env i entry hget
    | some l =>
      rw [hm] at hget
      obtain ⟨a, hga, hfa⟩ := mapOrThrow_get? _ _ _ hm i entry hget
      rw [List.get?_enum] at hga
      cases hti : (d.daily.take 7).get? i with
      | none => rw [hti] at hga; exact Option.noConfusion hga
      | some item =>
        rw [hti] at hga
        simp only [Option.map_some', Option.some.injEq] at hga
        subst hga
        cases hw : item.weather with
        | nil =>
          rw [normalizeDailyItem, hw] at hfa
          exact Option.noConfusion hfa
        | cons w ws =>
          rw [normalizeDailyItem, hw] at hfa
          simp only [Option.some.injEq] at hfa
          subst hfa
          constructor
          · intro h0
            subst h0
            rfl
          · intro hpos
            refine ⟨item.dt * 1000, rfl, ?_⟩
            simp only []
            rw [if_neg (Nat.pos_iff_ne_zero.mp hpos)]

/-- Witness for `daily_day_labels`: the fallback forecast at index 1. -/
theorem daily_day_labels_witness :
    ((1 : ℕ) = 0 → (mockDailyEntry testEnv 1).day = "Today") ∧
    (0 < (1 : ℕ) → ∃ t : Int,
      (mockDailyEntry testEnv 1).date = testEnv.formatDate t ∧
      (mockDailyEntry testEnv 1).day =
        daysOfWeek.getD (testEnv.getDay t).val "") :=
  daily_day_labels testEnv (Except.error ()) 1 (mockDailyEntry testEnv 1) rfl

/-- Claim C10: starting from the empty cache the service is created with,
every entry the cache ever holds after any trace of operations carries a
payload (with its write time) delivered by a successful upstream response
of that trace; mock/fallback view-model values are never written, since the
only cache write in the service is on the success path of
`fetchWithCache`. -/
theorem cache_provenance {α : Type} (ops : List (CacheOp α)) (k : String)
    (entry : CacheEntry α) (hmem : (k, entry) ∈ runOps [] ops) :
    (entry.data, entry.timestamp) ∈ okResponses ops := by
  rcases cache_entry_source ops [] (k, entry) hmem with h1 | h2
  · exact absurd h1 (List.not_mem_nil _)
  · exact h2

/-- Witness for `cache_provenance`: one successful fetch fills the cache
with exactly that response. -/
theorem cache_provenance_witness :
    ((42 : ℕ), (5 : ℤ)) ∈
      okResponses [CacheOp.fetch "weather" [] 5 (Except.ok 42)] :=
  cache_provenance _ (getCacheKey "weather" []) ⟨42, 5⟩ (by decide)

end Weather
